import Mathlib

/-!
Shallow embedding of the resource-binding stream feature of the xmpp
package (src/bind.go), together with the small data model it depends on.

External collaborators (the jid address type, the random-identifier
source, the XML token codec and the session-state flag constants) are not
part of src/; where a claim depends on them they are modelled from the
spec, with a doc comment saying so.  I/O fallibility of the encoder is
modelled by an explicit oracle: a list of `Option Err` consumed one entry
per encoder operation (`none` = the operation succeeds, `some e` = it
fails with `e`); an empty oracle means every operation succeeds.
-/

namespace Xmpp

/-- An XML name: namespace (`Space`) and local tag (`Local`), as in
`encoding/xml`'s `xml.Name`. -/
structure XmlName where
  space : String
  localName : String
deriving DecidableEq, Repr

/-- The binding namespace `urn:ietf:params:xml:ns:xmpp-bind`
(`ns.Bind`; its value appears literally in src/bind.go struct tags). -/
def nsBind : String := "urn:ietf:params:xml:ns:xmpp-bind"

/-- Modelled from the spec: `ns.Client`, the namespace of the
response-envelope (`iq`) element expected by the initiating role; the
constant lives in internal/ns which is not under src/. -/
def nsClient : String := "jabber:client"

/-- An XML token as written by the encoder or read from the decoder:
start element, end element, or character data. -/
inductive Tok where
  | startEl (name : XmlName)
  | endEl (name : XmlName)
  | charData (s : String)
deriving DecidableEq, Repr

/-- A stanza-level error (`stanza.Error`), reduced to the fields the
binding code exercises: the defined condition and optional text. -/
structure StanzaError where
  condition : String
  text : String
deriving DecidableEq, Repr

/-- The errors the binding feature can return: transport I/O errors,
the two stream errors it constructs (`stream.BadFormat`,
`stream.UndefinedCondition`), a stanza error value, and an address
construction failure from `jid.New`. -/
inductive Err where
  | io (s : String)
  | badFormat
  | undefinedCondition
  | stanza (e : StanzaError)
  | jidMalformed (s : String)
deriving DecidableEq, Repr

/-- The address (JID) value: localpart, domainpart, resourcepart.
The jid package itself is out of scope; only the accessors and the
constructor used by bind.go are modelled. -/
structure JID where
  localpart : String
  domainpart : String
  resourcepart : String
deriving DecidableEq, Repr

/-- Modelled from the spec: the string form of an address
(`(*jid.JID).String`), `local@domain/resource` with the separators
omitted for empty localpart/resourcepart. -/
def JID.toStr (j : JID) : String :=
  (if j.localpart = "" then "" else j.localpart ++ "@")
    ++ j.domainpart
    ++ (if j.resourcepart = "" then "" else "/" ++ j.resourcepart)

/-- Modelled from the spec: `jid.New`, the external address constructor
with structural validation (spec section 4.2: binding fails if the
resulting address fails structural validation).  Validation is reduced
to the one rule every JID obeys: a nonempty domainpart. -/
def jidNew (l d r : String) : Except Err JID :=
  if d = "" then .error (.jidMalformed "jid: empty domainpart") else .ok ⟨l, d, r⟩

/-- Session state flag bits (`SessionState`).  Modelled from the spec:
the flag constants live in the session code outside src/; the spec only
requires them to be distinct bits of a bitmask. -/
def Secure : Nat := 1

/-- The authenticated flag bit. -/
def Authn : Nat := 2

/-- The ready flag bit: set only when negotiation is complete. -/
def Ready : Nat := 4

/-- The receiving-role flag bit (`Received`). -/
def Received : Nat := 8

/-- The dynamic (interface value) payload handed from Parse to
Negotiate.  Only the two values the binding code can see arise: Go
`nil` and a Go `string`. -/
inductive Dyn where
  | nil
  | str (s : String)
deriving DecidableEq, Repr

/-- A Go run-time panic or a normal result, used to model the unchecked
type assertion `data.(string)`. -/
inductive PanicOr (α : Type) where
  | panic (msg : String)
  | ok (a : α)
deriving DecidableEq, Repr

/-- The panic message of a failed `nil.(string)` assertion. -/
def nilStringAssertMsg : String :=
  "interface conversion: interface is nil, not string"

/-- Go type assertion `data.(string)`: succeeds on a string, panics on
nil. -/
def Dyn.assertString : Dyn → PanicOr String
  | .str s => .ok s
  | .nil => .panic nilStringAssertMsg

/-- One item of the encoder's observable output trace: a written token,
a whole encoded bind-request IQ (`e.Encode` of the request struct in
src/bind.go lines 103-119), or a flush of the writer. -/
inductive OutItem where
  | tok (t : Tok)
  | iqBindReq (id : String) (isSet : Bool) (resource : String)
  | flushMark
deriving DecidableEq, Repr

/-- The encoder: an error oracle (one entry consumed per operation;
empty means all further operations succeed) and the trace written so
far. -/
structure Enc where
  errs : List (Option Err)
  out : List OutItem
deriving DecidableEq, Repr

/-- Consume one oracle entry: the operation's error outcome and the
remaining oracle. -/
def Enc.step (e : Enc) : Option Err × List (Option Err) :=
  match e.errs with
  | [] => (none, [])
  | o :: rest => (o, rest)

/-- `e.EncodeToken t`: on success append the token to the trace. -/
def Enc.encodeToken (e : Enc) (t : Tok) : Option Err × Enc :=
  match e.step with
  | (none, rest) => (none, ⟨rest, e.out ++ [.tok t]⟩)
  | (some err, rest) => (some err, ⟨rest, e.out⟩)

/-- `e.Flush()`: on success record the flush in the trace. -/
def Enc.flush (e : Enc) : Option Err × Enc :=
  match e.step with
  | (none, rest) => (none, ⟨rest, e.out ++ [.flushMark]⟩)
  | (some err, rest) => (some err, ⟨rest, e.out⟩)

/-- `e.Encode` of the bind-request IQ (src/bind.go lines 103-119): one
encoder operation that writes the request and flushes (Go's
`Encoder.Encode` flushes before returning). -/
def Enc.encodeIQBindReq (e : Enc) (id : String) (resource : String) :
    Option Err × Enc :=
  match e.step with
  | (none, rest) => (none, ⟨rest, e.out ++ [.iqBindReq id true resource, .flushMark]⟩)
  | (some err, rest) => (some err, ⟨rest, e.out⟩)

/-- The IQ type attribute values used by bind.go (`stanza.SetIQ`,
`stanza.ResultIQ`, `stanza.ErrorIQ`, and any other value). -/
inductive IQType where
  | get
  | set
  | result
  | error
deriving DecidableEq, Repr

/-- The decoded response (src/bind.go lines 139-145): embedded IQ id and
type, the nested bound address (`Bind.JID`, a possibly-nil pointer), and
the nested stanza error. -/
structure IQResp where
  id : String
  typ : IQType
  bindJID : Option JID
  err : StanzaError
deriving DecidableEq, Repr

/-- The session state bind.go touches: the flag mask, the peer address
(`RemoteAddr`), the configured origin resourcepart
(`Config().Origin.Resourcepart()`), and the recorded local address
(`session.origin`). -/
structure Session where
  state : Nat
  remoteAddr : JID
  originResource : String
  origin : Option JID
deriving DecidableEq, Repr

/-- The environment of one Negotiate call: the value returned by
`internal.RandomID()` (an injected random token, modelled from the spec:
the generator lives in internal/ which is not under src/), the encoder,
and the decoder's externally-determined outcomes: the first token read
(`d.Token()`) and the result of `d.DecodeElement` on the response. -/
structure Env where
  randomID : String
  enc : Enc
  tokRes : Except Err Tok
  decodeRes : Except Err IQResp
deriving Repr

/-- A custom address-assignment function, as passed to `BindCustom`:
`func(*jid.JID, string) (*jid.JID, error)`. -/
def AssignFn : Type := JID → String → Except Err JID

/-- What Negotiate returns (src/bind.go line 61): the flag mask delta,
the replacement stream (always absent for binding), the error, plus the
resulting session and encoder state of the embedding. -/
structure NegResult where
  mask : Nat
  rw : Option Unit
  err : Option Err
  session : Session
  enc : Enc
deriving DecidableEq, Repr

/-- src/bind.go lines 68-77: the receiving role's final-address
computation.  With a custom function, assert `data.(string)` (panicking
on non-string data) and call it on the peer address; otherwise build the
address from the peer's localpart and domainpart and the freshly
generated random token. -/
def bindServerJID (server : Option AssignFn) (remote : JID)
    (randomID : String) (data : Dyn) : PanicOr (Except Err JID) :=
  match server with
  | some f =>
    match data.assertString with
    | .panic m => .panic m
    | .ok s => .ok (f remote s)
  | none => .ok (jidNew remote.localpart remote.domainpart randomID)

/-- src/bind.go lines 61-166: the Negotiate operation of the binding
feature, branching on the `Received` flag into the receiving-role and
initiating-role protocols. -/
def bindNegotiate (server : Option AssignFn) (env : Env)
    (session : Session) (data : Dyn) : PanicOr NegResult :=
  if session.state &&& Received = Received then
    match bindServerJID server session.remoteAddr env.randomID data with
    | .panic m => .panic m
    | .ok (.error e) => .ok ⟨0, none, some e, session, env.enc⟩
    | .ok (.ok j) =>
      let bindStart := Tok.startEl ⟨nsBind, "bind"⟩
      let jidStart := Tok.startEl ⟨"", "jid"⟩
      match env.enc.encodeToken bindStart with
      | (some err, e1) => .ok ⟨0, none, some err, session, e1⟩
      | (none, e1) =>
        match e1.encodeToken jidStart with
        | (some err, e2) => .ok ⟨0, none, some err, session, e2⟩
        | (none, e2) =>
          match e2.encodeToken (.charData j.toStr) with
          | (some err, e3) => .ok ⟨0, none, some err, session, e3⟩
          | (none, e3) =>
            match e3.encodeToken (.endEl ⟨"", "jid"⟩) with
            | (some err, e4) => .ok ⟨0, none, some err, session, e4⟩
            | (none, e4) =>
              match e4.encodeToken (.endEl ⟨nsBind, "bind"⟩) with
              | (some err, e5) => .ok ⟨0, none, some err, session, e5⟩
              | (none, e5) =>
                match e5.flush with
                | (err, e6) => .ok ⟨0, none, err, session, e6⟩
  else
    let reqID := env.randomID
    match env.enc.encodeIQBindReq reqID session.originResource with
    | (some err, e1) => .ok ⟨0, none, some err, session, e1⟩
    | (none, e1) =>
      match env.tokRes with
      | .error err => .ok ⟨0, none, some err, session, e1⟩
      | .ok tok =>
        match tok with
        | .startEl name =>
          if name = ⟨nsClient, "iq"⟩ then
            match env.decodeRes with
            | .error err => .ok ⟨0, none, some err, session, e1⟩
            | .ok resp =>
              if resp.id ≠ reqID then
                .ok ⟨0, none, some .undefinedCondition, session, e1⟩
              else if resp.typ = .result then
                .ok ⟨Ready, none, none, { session with origin := resp.bindJID }, e1⟩
              else if resp.typ = .error then
                .ok ⟨0, none, some (.stanza resp.err), session, e1⟩
              else
                .ok ⟨0, none, some (.stanza ⟨"bad-request", ""⟩), session, e1⟩
          else
            .ok ⟨0, none, some .badFormat, session, e1⟩
        | _ => .ok ⟨0, none, some .badFormat, session, e1⟩

/-- src/bind.go lines 55-60: the Parse operation.  It decodes the
peer-sent element into a struct holding only an XMLName (the decode's
success is externally determined by the XML machinery, hence the
oracle argument) and returns `(true, nil, err)`: the parsed data is the
Go nil interface value, always. -/
def bindParse (decodeErr : Option Err) : Bool × Dyn × Option Err :=
  (true, Dyn.nil, decodeErr)

/-- src/bind.go lines 43-54: the List (advertise) operation.  Sets
`req = true`, writes the enclosing start tag and its matching end tag,
and flushes. -/
def bindList (e : Enc) (start : XmlName) : Bool × Option Err × Enc :=
  match e.encodeToken (.startEl start) with
  | (some err, e1) => (true, some err, e1)
  | (none, e1) =>
    match e1.encodeToken (.endEl start) with
    | (some err, e2) => (true, some err, e2)
    | (none, e2) =>
      match e2.flush with
      | (err, e3) => (true, err, e3)

/-- A stream feature descriptor (the fields of `StreamFeature` that
bind.go populates). -/
structure StreamFeature where
  name : XmlName
  necessary : Nat
  prohibited : Nat
  list : Enc → XmlName → Bool × Option Err × Enc
  parse : Option Err → Bool × Dyn × Option Err
  negotiate : Env → Session → Dyn → PanicOr NegResult

/-- src/bind.go lines 38-167: `BindCustom`, capturing the optional
custom assignment function at construction. -/
def BindCustom (server : Option AssignFn) : StreamFeature where
  name := ⟨nsBind, "bind"⟩
  necessary := Authn
  prohibited := Ready
  list := bindList
  parse := bindParse
  negotiate := fun env session data => bindNegotiate server env session data

/-- src/bind.go lines 30-32: `BindResource` is `BindCustom` with no
custom assignment function. -/
def BindResource : StreamFeature := BindCustom none

end Xmpp

namespace Xmpp

/-! ## Claim theorems -/

/-- C1 counterexample: feeding a bind request whose requested resource
string is "home" through the receiving-role protocol with no custom
assignment function does NOT yield resourcepart "home": the final
address's resourcepart is the freshly generated random token
(here "0123456789abcdef"). -/
theorem bind_recv_home_counterexample :
    bindServerJID none ⟨"user", "example.com", "orig"⟩ "0123456789abcdef"
        (Dyn.str "home")
      = .ok (.ok ⟨"user", "example.com", "0123456789abcdef"⟩)
    ∧ (JID.mk "user" "example.com" "0123456789abcdef").resourcepart ≠ "home" :=
  ⟨rfl, by decide⟩

/-- C1 (amended): with no custom assignment function, the receiving-role
final address keeps the peer's localpart and domainpart and its
resourcepart is the freshly generated random token, whatever resource
the request carried. -/
theorem bind_recv_default_resource_is_random (remote : JID) (rid : String)
    (d : Dyn) (h : remote.domainpart ≠ "") :
    bindServerJID none remote rid d
      = .ok (.ok ⟨remote.localpart, remote.domainpart, rid⟩) := by
  simp [bindServerJID, jidNew, h]

/-- Witness for the amended C1 at a concrete peer address and token. -/
theorem bind_recv_default_resource_is_random_witness :
    (JID.mk "user" "example.com" "orig").domainpart ≠ ""
    ∧ bindServerJID none ⟨"user", "example.com", "orig"⟩ "R4nd0m" Dyn.nil
        = .ok (.ok ⟨"user", "example.com", "R4nd0m"⟩) :=
  ⟨by decide,
    bind_recv_default_resource_is_random ⟨"user", "example.com", "orig"⟩
      "R4nd0m" Dyn.nil (by decide)⟩

/-- C2: the binding feature's Parse operation always returns the Go nil
interface value as its parsed data, never the requested resource string
(the decode target struct has no resource field). -/
theorem bindParse_returns_nil (o : Option Err) :
    ((BindCustom none).parse o).2.1 = Dyn.nil := rfl

/-- C3: with a non-nil custom assignment function, a receiving-role
Negotiate call on the nil parsed data that Parse produces performs the
unchecked type assertion data.(string) and panics instead of returning
an error. -/
theorem bind_negotiate_custom_panics (f : AssignFn) (env : Env)
    (s : Session) (h : s.state &&& Received = Received) :
    (BindCustom (some f)).negotiate env s Dyn.nil
      = .panic nilStringAssertMsg := by
  simp [BindCustom, bindNegotiate, h, bindServerJID, Dyn.assertString]

/-- Witness for C3 at a concrete session and assignment function. -/
theorem bind_negotiate_custom_panics_witness :
    ((Session.mk Received ⟨"u", "d", "r"⟩ "" none).state &&& Received = Received)
    ∧ (BindCustom (some (fun j _ => .ok j))).negotiate
        ⟨"id1", ⟨[], []⟩, .error (.io "x"), .error (.io "x")⟩
        (Session.mk Received ⟨"u", "d", "r"⟩ "" none) Dyn.nil
      = .panic nilStringAssertMsg :=
  ⟨by decide,
    bind_negotiate_custom_panics (fun j _ => .ok j)
      ⟨"id1", ⟨[], []⟩, .error (.io "x"), .error (.io "x")⟩
      (Session.mk Received ⟨"u", "d", "r"⟩ "" none) (by decide)⟩

/-- C4: in the initiating role, a decoded response whose echoed id
differs from the generated request id fails with
stream.UndefinedCondition (the CorrelationError) and a zero flag mask,
whatever the response's type field says (the id check fires before the
type is inspected). -/
theorem bind_client_correlation_mismatch (server : Option AssignFn)
    (env : Env) (s : Session) (d : Dyn) (resp : IQResp)
    (hrole : s.state &&& Received ≠ Received)
    (htok : env.tokRes = .ok (.startEl ⟨nsClient, "iq"⟩))
    (hdec : env.decodeRes = .ok resp)
    (hid : resp.id ≠ env.randomID)
    (henc : env.enc.errs = []) :
    ∃ e1 : Enc, (BindCustom server).negotiate env s d
      = .ok ⟨0, none, some Err.undefinedCondition, s, e1⟩ := by
  refine ⟨⟨[], env.enc.out ++ [.iqBindReq env.randomID true s.originResource,
    .flushMark]⟩, ?_⟩
  simp [BindCustom, bindNegotiate, hrole, htok, hdec, hid,
    Enc.encodeIQBindReq, Enc.step, henc]

/-- Witness for C4: a well-formed result-kind response with id "other"
against request id "reqid" yields the correlation error. -/
theorem bind_client_correlation_mismatch_witness :
    ((Session.mk 0 ⟨"u", "d", ""⟩ "" none).state &&& Received ≠ Received)
    ∧ ∃ e1 : Enc, (BindCustom none).negotiate
        ⟨"reqid", ⟨[], []⟩, .ok (.startEl ⟨nsClient, "iq"⟩),
          .ok ⟨"other", .result, some ⟨"u", "d", "res"⟩, ⟨"", ""⟩⟩⟩
        (Session.mk 0 ⟨"u", "d", ""⟩ "" none) Dyn.nil
      = .ok ⟨0, none, some Err.undefinedCondition,
          Session.mk 0 ⟨"u", "d", ""⟩ "" none, e1⟩ :=
  ⟨by decide,
    bind_client_correlation_mismatch none
      ⟨"reqid", ⟨[], []⟩, .ok (.startEl ⟨nsClient, "iq"⟩),
        .ok ⟨"other", .result, some ⟨"u", "d", "res"⟩, ⟨"", ""⟩⟩⟩
      (Session.mk 0 ⟨"u", "d", ""⟩ "" none) Dyn.nil
      ⟨"other", .result, some ⟨"u", "d", "res"⟩, ⟨"", ""⟩⟩
      (by decide) rfl rfl (by decide) rfl⟩

/-- C5: in the initiating role, a first token that is not a start
element, or a start element that is not the client-namespace iq
envelope, fails with stream.BadFormat, for every possible decode
outcome (the decode is never attempted). -/
theorem bind_client_bad_first_token (server : Option AssignFn) (env : Env)
    (s : Session) (d : Dyn) (tok : Tok)
    (hrole : s.state &&& Received ≠ Received)
    (htok : env.tokRes = .ok tok)
    (hname : ∀ n : XmlName, tok = .startEl n → n ≠ ⟨nsClient, "iq"⟩)
    (henc : env.enc.errs = []) :
    ∃ e1 : Enc, (BindCustom server).negotiate env s d
      = .ok ⟨0, none, some Err.badFormat, s, e1⟩ := by
  refine ⟨⟨[], env.enc.out ++ [.iqBindReq env.randomID true s.originResource,
    .flushMark]⟩, ?_⟩
  cases tok with
  | startEl n =>
    have hn := hname n rfl
    simp [BindCustom, bindNegotiate, hrole, htok, hn,
      Enc.encodeIQBindReq, Enc.step, henc]
  | endEl n =>
    simp [BindCustom, bindNegotiate, hrole, htok,
      Enc.encodeIQBindReq, Enc.step, henc]
  | charData c =>
    simp [BindCustom, bindNegotiate, hrole, htok,
      Enc.encodeIQBindReq, Enc.step, henc]

/-- Witness for C5: first token is character data. -/
theorem bind_client_bad_first_token_witness :
    ((Session.mk 0 ⟨"u", "d", ""⟩ "" none).state &&& Received ≠ Received)
    ∧ ∃ e1 : Enc, (BindCustom none).negotiate
        ⟨"reqid", ⟨[], []⟩, .ok (.charData "hi"), .error (.io "unused")⟩
        (Session.mk 0 ⟨"u", "d", ""⟩ "" none) Dyn.nil
      = .ok ⟨0, none, some Err.badFormat,
          Session.mk 0 ⟨"u", "d", ""⟩ "" none, e1⟩ :=
  ⟨by decide,
    bind_client_bad_first_token none
      ⟨"reqid", ⟨[], []⟩, .ok (.charData "hi"), .error (.io "unused")⟩
      (Session.mk 0 ⟨"u", "d", ""⟩ "" none) Dyn.nil (.charData "hi")
      (by decide) rfl (fun n h => by cases h) rfl⟩

end Xmpp

namespace Xmpp

/-- C6: in the initiating role, a result-kind response whose echoed id
matches the generated request id records the nested bound address as the
session's local address and returns the Ready flag delta with no
replacement stream and no error. -/
theorem bind_client_result_binds (server : Option AssignFn) (env : Env)
    (s : Session) (d : Dyn) (resp : IQResp)
    (hrole : s.state &&& Received ≠ Received)
    (htok : env.tokRes = .ok (.startEl ⟨nsClient, "iq"⟩))
    (hdec : env.decodeRes = .ok resp)
    (hid : resp.id = env.randomID)
    (htyp : resp.typ = .result)
    (henc : env.enc.errs = []) :
    ∃ e1 : Enc, (BindCustom server).negotiate env s d
      = .ok ⟨Ready, none, none, { s with origin := resp.bindJID }, e1⟩ := by
  refine ⟨⟨[], env.enc.out ++ [.iqBindReq env.randomID true s.originResource,
    .flushMark]⟩, ?_⟩
  simp [BindCustom, bindNegotiate, hrole, htok, hdec, hid, htyp,
    Enc.encodeIQBindReq, Enc.step, henc]

/-- Witness for C6: a matching result response carrying bound address
u@d/res is recorded as the session origin, with the Ready delta. -/
theorem bind_client_result_binds_witness :
    ((Session.mk 0 ⟨"u", "d", ""⟩ "" none).state &&& Received ≠ Received)
    ∧ ∃ e1 : Enc, (BindCustom none).negotiate
        ⟨"reqid", ⟨[], []⟩, .ok (.startEl ⟨nsClient, "iq"⟩),
          .ok ⟨"reqid", .result, some ⟨"u", "d", "res"⟩, ⟨"", ""⟩⟩⟩
        (Session.mk 0 ⟨"u", "d", ""⟩ "" none) Dyn.nil
      = .ok ⟨Ready, none, none,
          Session.mk 0 ⟨"u", "d", ""⟩ "" (some ⟨"u", "d", "res"⟩), e1⟩ :=
  ⟨by decide,
    bind_client_result_binds none
      ⟨"reqid", ⟨[], []⟩, .ok (.startEl ⟨nsClient, "iq"⟩),
        .ok ⟨"reqid", .result, some ⟨"u", "d", "res"⟩, ⟨"", ""⟩⟩⟩
      (Session.mk 0 ⟨"u", "d", ""⟩ "" none) Dyn.nil
      ⟨"reqid", .result, some ⟨"u", "d", "res"⟩, ⟨"", ""⟩⟩
      (by decide) rfl rfl rfl rfl rfl⟩

/-- C7: in the initiating role, an error-kind response with a matching
id fails with the peer's stanza error returned verbatim, and a zero flag
mask, so the Ready flag stays unset. -/
theorem bind_client_error_verbatim (server : Option AssignFn) (env : Env)
    (s : Session) (d : Dyn) (resp : IQResp)
    (hrole : s.state &&& Received ≠ Received)
    (htok : env.tokRes = .ok (.startEl ⟨nsClient, "iq"⟩))
    (hdec : env.decodeRes = .ok resp)
    (hid : resp.id = env.randomID)
    (htyp : resp.typ = .error)
    (henc : env.enc.errs = []) :
    ∃ e1 : Enc, (BindCustom server).negotiate env s d
      = .ok ⟨0, none, some (.stanza resp.err), s, e1⟩ := by
  refine ⟨⟨[], env.enc.out ++ [.iqBindReq env.randomID true s.originResource,
    .flushMark]⟩, ?_⟩
  simp [BindCustom, bindNegotiate, hrole, htok, hdec, hid, htyp,
    Enc.encodeIQBindReq, Enc.step, henc]

/-- Witness for C7: a matching error response with condition
not-allowed surfaces exactly that condition and a zero mask. -/
theorem bind_client_error_verbatim_witness :
    ((Session.mk 0 ⟨"u", "d", ""⟩ "" none).state &&& Received ≠ Received)
    ∧ ∃ e1 : Enc, (BindCustom none).negotiate
        ⟨"reqid", ⟨[], []⟩, .ok (.startEl ⟨nsClient, "iq"⟩),
          .ok ⟨"reqid", .error, none, ⟨"not-allowed", ""⟩⟩⟩
        (Session.mk 0 ⟨"u", "d", ""⟩ "" none) Dyn.nil
      = .ok ⟨0, none, some (.stanza ⟨"not-allowed", ""⟩),
          Session.mk 0 ⟨"u", "d", ""⟩ "" none, e1⟩ :=
  ⟨by decide,
    bind_client_error_verbatim none
      ⟨"reqid", ⟨[], []⟩, .ok (.startEl ⟨nsClient, "iq"⟩),
        .ok ⟨"reqid", .error, none, ⟨"not-allowed", ""⟩⟩⟩
      (Session.mk 0 ⟨"u", "d", ""⟩ "" none) Dyn.nil
      ⟨"reqid", .error, none, ⟨"not-allowed", ""⟩⟩
      (by decide) rfl rfl rfl rfl rfl⟩

/-- C8: whenever Negotiate returns (rather than panics) with an error,
in either role, the returned flag mask is zero: no partial flag delta is
produced on failure. -/
theorem bind_negotiate_error_empty_mask (server : Option AssignFn)
    (env : Env) (s : Session) (d : Dyn) (r : NegResult)
    (hok : bindNegotiate server env s d = .ok r)
    (herr : r.err.isSome) :
    r.mask = 0 := by
  simp only [bindNegotiate] at hok
  repeat' split at hok
  all_goals
    first
      | exact PanicOr.noConfusion hok
      | (injection hok with h; subst h; first | rfl | simp_all)

/-- Witness for C8: a transport failure while reading the response
returns that error with a zero mask. -/
theorem bind_negotiate_error_empty_mask_witness :
    bindNegotiate none ⟨"i", ⟨[], []⟩, .error (.io "x"), .error (.io "y")⟩
        ⟨0, ⟨"u", "d", ""⟩, "", none⟩ Dyn.nil
      = .ok ⟨0, none, some (.io "x"), ⟨0, ⟨"u", "d", ""⟩, "", none⟩,
          ⟨[], [.iqBindReq "i" true "", .flushMark]⟩⟩
    ∧ (Option.some (Err.io "x")).isSome
    ∧ (NegResult.mk 0 none (some (.io "x")) ⟨0, ⟨"u", "d", ""⟩, "", none⟩
        ⟨[], [.iqBindReq "i" true "", .flushMark]⟩).mask = 0 :=
  ⟨by decide, rfl,
    bind_negotiate_error_empty_mask none
      ⟨"i", ⟨[], []⟩, .error (.io "x"), .error (.io "y")⟩
      ⟨0, ⟨"u", "d", ""⟩, "", none⟩ Dyn.nil
      ⟨0, none, some (.io "x"), ⟨0, ⟨"u", "d", ""⟩, "", none⟩,
        ⟨[], [.iqBindReq "i" true "", .flushMark]⟩⟩
      (by decide) rfl⟩

/-- C9: a receiving-role negotiation with no custom assignment function
builds the final address from the peer's localpart and domainpart with
the random token as resourcepart, emits the bind element wrapping a jid
child whose text is that address's string form, flushes, and returns a
zero flag mask with no replacement stream. -/
theorem bind_recv_default_success (env : Env) (s : Session) (d : Dyn)
    (hrole : s.state &&& Received = Received)
    (hdom : s.remoteAddr.domainpart ≠ "")
    (henc : env.enc.errs = []) :
    (BindCustom none).negotiate env s d
      = .ok ⟨0, none, none, s,
          ⟨[], env.enc.out ++
            [.tok (.startEl ⟨nsBind, "bind"⟩),
             .tok (.startEl ⟨"", "jid"⟩),
             .tok (.charData (JID.toStr ⟨s.remoteAddr.localpart,
               s.remoteAddr.domainpart, env.randomID⟩)),
             .tok (.endEl ⟨"", "jid"⟩),
             .tok (.endEl ⟨nsBind, "bind"⟩),
             .flushMark]⟩⟩ := by
  simp [BindCustom, bindNegotiate, hrole, bindServerJID, jidNew, hdom,
    Enc.encodeToken, Enc.flush, Enc.step, henc]

/-- Witness for C9 at peer address user@example.com/orig and random
token R4nd0m: emits jid text user@example.com/R4nd0m. -/
theorem bind_recv_default_success_witness :
    ((Session.mk Received ⟨"user", "example.com", "orig"⟩ "" none).state
        &&& Received = Received)
    ∧ (BindCustom none).negotiate
        ⟨"R4nd0m", ⟨[], []⟩, .error (.io "unused"), .error (.io "unused")⟩
        (Session.mk Received ⟨"user", "example.com", "orig"⟩ "" none) Dyn.nil
      = .ok ⟨0, none, none,
          Session.mk Received ⟨"user", "example.com", "orig"⟩ "" none,
          ⟨[], [.tok (.startEl ⟨nsBind, "bind"⟩),
                .tok (.startEl ⟨"", "jid"⟩),
                .tok (.charData "user@example.com/R4nd0m"),
                .tok (.endEl ⟨"", "jid"⟩),
                .tok (.endEl ⟨nsBind, "bind"⟩),
                .flushMark]⟩⟩ :=
  ⟨by decide, by
    simpa [JID.toStr] using bind_recv_default_success
      ⟨"R4nd0m", ⟨[], []⟩, .error (.io "unused"), .error (.io "unused")⟩
      (Session.mk Received ⟨"user", "example.com", "orig"⟩ "" none) Dyn.nil
      (by decide) (by decide) rfl⟩

/-- C10: the advertise operation reports mandatory (req) = true, writes
exactly the empty bind element (the enclosing start tag immediately
followed by its end tag) under the binding namespace, and flushes before
returning. -/
theorem bind_list_advertises (e : Enc) (henc : e.errs = []) :
    (BindCustom none).list e (BindCustom none).name
      = (true, none, ⟨[], e.out ++
          [.tok (.startEl ⟨nsBind, "bind"⟩),
           .tok (.endEl ⟨nsBind, "bind"⟩),
           .flushMark]⟩) := by
  simp [BindCustom, bindList, Enc.encodeToken, Enc.flush, Enc.step, henc]

/-- Witness for C10 on a fresh encoder. -/
theorem bind_list_advertises_witness :
    (Enc.mk [] []).errs = []
    ∧ (BindCustom none).list ⟨[], []⟩ (BindCustom none).name
      = (true, none, ⟨[], [.tok (.startEl ⟨nsBind, "bind"⟩),
          .tok (.endEl ⟨nsBind, "bind"⟩), .flushMark]⟩) :=
  ⟨rfl, by simpa using bind_list_advertises ⟨[], []⟩ rfl⟩

end Xmpp
